import Mathlib

/-!
Verification of the frame transport and format negotiation core of
`galister/lensing` (files `src/pw_capture.rs` and `src/main.rs`).

The development shallowly embeds the two source files:

* the SPA parameter-object vocabulary (`Value` / `Property` / `Object` of
  the pipewire crate) becomes the Lean inductive `SpaValue` with
  `SpaProperty` / `SpaObject`;
* `fourcc_to_spa_video_format`, `format_get_params`,
  `format_dmabuf_params` and the offer construction of
  `pipewire_init_stream` become Lean functions of the same names;
* the `new_sample` callback of `main.rs` (memfd allocation, resize,
  sealing, mmap copy, descriptor send) becomes a small effect monad
  `StageM` recording the sequence of succeeded operations, with an
  environment `StageEnv` deciding which fallible system call succeeds;
* the `process` and `param_changed` stream callbacks of
  `pw_capture.rs` become `process_cb` and `param_changed`.
-/

/-! ## Constants from `libspa_sys` used by the source -/

def SPA_VIDEO_FORMAT_RGBx : Nat := 7
def SPA_VIDEO_FORMAT_BGRx : Nat := 8
def SPA_VIDEO_FORMAT_RGBA : Nat := 11
def SPA_VIDEO_FORMAT_BGRA : Nat := 12
def SPA_MEDIA_TYPE_video : Nat := 2
def SPA_MEDIA_SUBTYPE_raw : Nat := 1
def SPA_FORMAT_mediaType : Nat := 1
def SPA_FORMAT_mediaSubtype : Nat := 2
def SPA_FORMAT_VIDEO_format : Nat := 0x20001
def SPA_FORMAT_VIDEO_modifier : Nat := 0x20002
def SPA_FORMAT_VIDEO_size : Nat := 0x20003
def SPA_FORMAT_VIDEO_framerate : Nat := 0x20004
def SPA_TYPE_OBJECT_Format : Nat := 0x40003
def SPA_TYPE_OBJECT_ParamBuffers : Nat := 0x40004
def SPA_PARAM_EnumFormat : Nat := 3
def SPA_PARAM_Format : Nat := 4
def SPA_PARAM_Buffers : Nat := 5
def SPA_PARAM_BUFFERS_dataType : Nat := 6
def SPA_DATA_DmaBuf : Nat := 3

/-- `PropertyFlags::MANDATORY` of the pipewire crate (bit 3). -/
def PROP_FLAG_MANDATORY : Nat := 8

/-- `PropertyFlags::DONT_FIXATE` of the pipewire crate (bit 4). -/
def PROP_FLAG_DONT_FIXATE : Nat := 16

/-! ## The parameter-object data model (`Value`, `Property`, `Object`) -/

structure SpaRectangle where
  width : Nat
  height : Nat
deriving DecidableEq, Repr

structure SpaFraction where
  num : Nat
  denom : Nat
deriving DecidableEq, Repr

/-- The subset of the pipewire `Value` type exercised by the source:
identifiers, plain rectangles, and range choices over rectangles and
fractions (`ChoiceEnum::Range { default, min, max }`). -/
inductive SpaValue where
  | id (v : Nat)
  | rectangle (r : SpaRectangle)
  | choiceRectRange (dflt lo hi : SpaRectangle)
  | choiceFracRange (dflt lo hi : SpaFraction)
deriving DecidableEq, Repr

structure SpaProperty where
  key : Nat
  flags : Nat
  value : SpaValue
deriving DecidableEq, Repr

structure SpaObject where
  type_ : Nat
  id : Nat
  properties : List SpaProperty
deriving DecidableEq, Repr

/-! ## `pw_capture.rs`: format negotiation -/

structure DrmFormat where
  code : Nat
  modifier : Nat
deriving DecidableEq, Repr

/-- `fourcc_to_spa_video_format` (pw_capture.rs lines 45-58): DRM fourcc
codes to SPA video formats (fourcc byte order is reversed: ARGB = BGRA). -/
def fourcc_to_spa_video_format (fourcc : Nat) : Option Nat :=
  match fourcc with
  | 0x34325241 => some SPA_VIDEO_FORMAT_BGRA
  | 0x34324241 => some SPA_VIDEO_FORMAT_RGBA
  | 0x34325258 => some SPA_VIDEO_FORMAT_BGRx
  | 0x34324258 => some SPA_VIDEO_FORMAT_RGBx
  | _ => none

/-- `format_get_params` (pw_capture.rs lines 77-143). The modifier is a
`u64` in the source but is stored as `Value::Id(Id(modifier as _))`, a
`u32`, hence the truncation `modifier % 2 ^ 32`. -/
def format_get_params (format : Nat) (modifier : Nat) (fps : Nat) : SpaObject :=
  { type_ := SPA_TYPE_OBJECT_Format
    id := SPA_PARAM_EnumFormat
    properties := [
      { key := SPA_FORMAT_mediaType, flags := 0,
        value := SpaValue.id SPA_MEDIA_TYPE_video },
      { key := SPA_FORMAT_mediaSubtype, flags := 0,
        value := SpaValue.id SPA_MEDIA_SUBTYPE_raw },
      { key := SPA_FORMAT_VIDEO_format, flags := 0,
        value := SpaValue.id format },
      { key := SPA_FORMAT_VIDEO_modifier,
        flags := PROP_FLAG_MANDATORY ||| PROP_FLAG_DONT_FIXATE,
        value := SpaValue.id (modifier % 2 ^ 32) },
      { key := SPA_FORMAT_VIDEO_size, flags := 0,
        value := SpaValue.choiceRectRange ⟨256, 256⟩ ⟨1, 1⟩ ⟨8192, 8192⟩ },
      { key := SPA_FORMAT_VIDEO_framerate, flags := 0,
        value := SpaValue.choiceFracRange ⟨fps, 1⟩ ⟨0, 1⟩ ⟨1000, 1⟩ } ] }

/-- `format_dmabuf_params` (pw_capture.rs lines 60-75): a `ParamBuffers`
object whose sole property requests `SPA_DATA_DmaBuf` buffers. -/
def format_dmabuf_params : SpaObject :=
  { type_ := SPA_TYPE_OBJECT_ParamBuffers
    id := SPA_PARAM_Buffers
    properties := [
      { key := SPA_PARAM_BUFFERS_dataType, flags := 0,
        value := SpaValue.id SPA_DATA_DmaBuf } ] }

/-- The offer construction of `pipewire_init_stream` (pw_capture.rs lines
213-216): `formats.iter().filter_map(|f| { let v =
fourcc_to_spa_video_format(f.code)?; Some(format_get_params(v, f.modifier,
fps)) })`. -/
def format_params (fps : Nat) (formats : List DrmFormat) : List SpaObject :=
  formats.filterMap fun f =>
    (fourcc_to_spa_video_format f.code).map fun v =>
      format_get_params v f.modifier fps

/-- The four DRM fourcc codes accepted by `fourcc_to_spa_video_format`:
ARGB8888, ABGR8888, XRGB8888, XBGR8888. -/
def supportedFourccs : List Nat := [0x34325241, 0x34324241, 0x34325258, 0x34324258]

/-! ## `main.rs`: the `new_sample` staging path -/

/-- The seals applied by `new_sample` (`memfd::FileSeal`). The source
never applies `SealWrite`, so writing through the later `mmap` remains
legal after sealing. -/
inductive FileSeal where
  | sealShrink
  | sealGrow
  | sealSeal
deriving DecidableEq, Repr

/-- One succeeded effect of the `new_sample` callback, in program order:
memfd creation, `set_len`, `add_seals` (a `SealsHashSet`, hence a set of
seals applied in one call), `add_seal`, the mmap write
(`map_mut` + `copy_from_slice`, recorded with the bytes written), and the
ancillary-data send (`send_fds(payload, fds)`). -/
inductive StageEvent where
  | memfdCreate
  | setLen (n : Nat)
  | addSeals (s : List FileSeal)
  | addSeal (s : FileSeal)
  | mmapWrite (bytes : List Nat)
  | sendFds (payload : List Nat) (fds : List Nat)
deriving DecidableEq, Repr

/-- `gstreamer::FlowError`: the callback returns `FlowError::Error` on
every failure path after a sample has been pulled. -/
inductive FlowError where
  | error
  | eos
deriving DecidableEq, Repr

/-- Environment deciding which fallible system operation succeeds, plus
the raw fd number the fresh memfd would receive. -/
structure StageEnv where
  createOk : Bool
  setLenOk : Bool
  addSealsOk : Bool
  addSealOk : Bool
  mmapOk : Bool
  sendOk : Bool
  freshFd : Nat
deriving DecidableEq, Repr

def allOkEnv (fd : Nat) : StageEnv :=
  { createOk := true, setLenOk := true, addSealsOk := true,
    addSealOk := true, mmapOk := true, sendOk := true, freshFd := fd }

/-- Effect monad for the callback: threads the list of succeeded
operations and short-circuits on the first failure, mirroring the `?`
operator chain of the source. -/
def StageM (α : Type) : Type := List StageEvent → Except FlowError α × List StageEvent

def StageM.pure {α : Type} (a : α) : StageM α := fun s => (Except.ok a, s)

def StageM.bind {α β : Type} (x : StageM α) (f : α → StageM β) : StageM β := fun s =>
  match x s with
  | (Except.ok a, s') => f a s'
  | (Except.error e, s') => (Except.error e, s')

/-- Record a succeeded operation. -/
def emit (e : StageEvent) : StageM Unit := fun s => (Except.ok (), s ++ [e])

/-- Fail the callback with `FlowError::Error` (after `element_error!`
posts a `ResourceError::Failed`). -/
def throwErr {α : Type} : StageM α := fun s => (Except.error FlowError.error, s)

/-- A fallible operation: succeeds (and is recorded) iff the environment
says so, otherwise the surrounding `?` aborts the callback. -/
def tryOp (ok : Bool) (e : StageEvent) : StageM Unit :=
  if ok then emit e else throwErr

/-- Classification of the single memory of the pulled buffer:
`downcast_memory_ref::<FdMemory>` succeeds (descriptor-backed) or the
buffer is only CPU-mappable (`map_readable` bytes). -/
inductive BufferMemory where
  | fdBacked (fd : Nat)
  | mapped (bytes : List Nat)
deriving DecidableEq, Repr

/-- The mapped-only branch of `new_sample` (main.rs lines 155-211):
memfd create, `set_len(map.size())`, `add_seals({SealShrink, SealGrow})`,
`add_seal(SealSeal)`, then `map_mut` + `copy_from_slice(map)`. -/
def stageMapped (env : StageEnv) (bytes : List Nat) : StageM Unit :=
  StageM.bind (tryOp env.createOk StageEvent.memfdCreate) fun _ =>
  StageM.bind (tryOp env.setLenOk (StageEvent.setLen bytes.length)) fun _ =>
  StageM.bind (tryOp env.addSealsOk
    (StageEvent.addSeals [FileSeal.sealShrink, FileSeal.sealGrow])) fun _ =>
  StageM.bind (tryOp env.addSealOk (StageEvent.addSeal FileSeal.sealSeal)) fun _ =>
  tryOp env.mmapOk (StageEvent.mmapWrite bytes)

/-- The `new_sample` callback body after the sample is pulled (main.rs
lines 98-228): reject buffers without exactly one memory, then either
send the existing descriptor directly or stage through a sealed memfd
and send its descriptor, as ancillary data next to the one-byte payload
`[0u8; 1]`. -/
def new_sample (env : StageEnv) (mems : List BufferMemory) : StageM Unit :=
  match mems with
  | [BufferMemory.fdBacked fd] =>
      tryOp env.sendOk (StageEvent.sendFds [0] [fd])
  | [BufferMemory.mapped bytes] =>
      StageM.bind (stageMapped env bytes) fun _ =>
        tryOp env.sendOk (StageEvent.sendFds [0] [env.freshFd])
  | _ => throwErr

/-- Run the callback from the empty trace. -/
def runNewSample (env : StageEnv) (mems : List BufferMemory) :
    Except FlowError Unit × List StageEvent :=
  new_sample env mems []

/-- The net effect of a staging trace on the fresh shared-memory region:
its size, byte contents and accumulated seals. -/
structure SealedRegion where
  size : Nat
  contents : List Nat
  seals : List FileSeal
deriving DecidableEq, Repr

def applyEvent (r : SealedRegion) : StageEvent → SealedRegion
  | StageEvent.setLen n => { r with size := n }
  | StageEvent.addSeals s => { r with seals := r.seals ++ s }
  | StageEvent.addSeal s => { r with seals := r.seals ++ [s] }
  | StageEvent.mmapWrite b => { r with contents := b }
  | _ => r

def regionOf (tr : List StageEvent) : SealedRegion :=
  tr.foldl applyEvent { size := 0, contents := [], seals := [] }

def isWriteEvent : StageEvent → Bool
  | StageEvent.mmapWrite _ => true
  | _ => false

def isSealEvent : StageEvent → Bool
  | StageEvent.addSeals _ => true
  | StageEvent.addSeal _ => true
  | _ => false

/-- Indices of the trace whose event satisfies `p`. -/
def eventIdxs (p : StageEvent → Bool) (tr : List StageEvent) : List Nat :=
  (List.range tr.length).filter fun i => p (tr.getD i StageEvent.memfdCreate)

/-- The ordering asserted by the specification: every seal operation
occurs strictly after the (single) mmap write. -/
def writeThenSeal (tr : List StageEvent) : Bool :=
  (eventIdxs isWriteEvent tr).all fun i =>
    (eventIdxs isSealEvent tr).all fun j => i < j

/-! ## `pw_capture.rs`: stream callbacks -/

/-- `PipewireFrameFormat` (pw_capture.rs lines 15-21): `width`, `height`,
`format` are `u32`, `modifier` is `u64`. -/
structure PipewireFrameFormat where
  width : Nat
  height : Nat
  format : Nat
  modifier : Nat
deriving DecidableEq, Repr

def PipewireFrameFormat.modifier_hi (f : PipewireFrameFormat) : Nat :=
  f.modifier / 2 ^ 32 % 2 ^ 32

def PipewireFrameFormat.modifier_lo (f : PipewireFrameFormat) : Nat :=
  f.modifier % 2 ^ 32

/-- `PipewireDmabufPlane` (pw_capture.rs lines 32-37). -/
structure PipewireDmabufPlane where
  fd : Int
  offset : Nat
  stride : Int
deriving DecidableEq, Repr

/-- The `param_changed` callback (pw_capture.rs lines 165-184), as a
function of the current format, the changed param id, and the decoded pod
(`none` models a null `param` pointer). It returns the new format state
and the list of parameter objects issued through `update_params`. The
source does not parse the pod (the `spa_format_video_raw_parse` step is a
TODO stub): it writes zeroes into every field of the format and then
issues `format_dmabuf_params`. -/
def param_changed (fmt : PipewireFrameFormat) (id : Nat) (param : Option SpaObject) :
    PipewireFrameFormat × List SpaObject :=
  match param with
  | none => (fmt, [])
  | some _ =>
      if id ≠ SPA_PARAM_Format then (fmt, [])
      else ({ width := 0, height := 0, format := 0, modifier := 0 },
            [format_dmabuf_params])

/-- The `offset`/`stride` of one data's chunk, as read by the `process`
callback. -/
structure PwChunkInfo where
  offset : Nat
  stride : Int
deriving DecidableEq, Repr

/-- One dequeued pipewire buffer: the list of its datas' chunk info. -/
structure PwBuffer where
  datas : List PwChunkInfo
deriving DecidableEq, Repr

/-- The `process` callback (pw_capture.rs lines 188-210), as a function of
the current format and the queue of pending buffers in queueing order
(`dequeue_buffer` pops the oldest first). The `while let` loop keeps only
the last dequeued buffer; the guard is the source's `datas.len() < 0`
comparison on an unsigned length; the planes are built with the stubbed
`fd: 0`. The result is the list of `on_frame` invocations. -/
def process_cb (fmt : PipewireFrameFormat) (queue : List PwBuffer) :
    List (PipewireFrameFormat × List PipewireDmabufPlane) :=
  match queue.foldl (fun _ b => some b) (none : Option PwBuffer) with
  | none => []
  | some buffer =>
      if buffer.datas.length < 0 then []
      else [(fmt, buffer.datas.map fun p =>
              { fd := 0, offset := p.offset, stride := p.stride })]

/-! ## Claims -/

/-- C1: for the candidate list `[(ABGR8888 fourcc, modifier 0)]` — the
DRM fourcc naming the RGBA pixel layout (fourcc byte order is reversed) —
at 30 fps, the offer is exactly one format object: media type video,
media subtype raw, the RGBA pixel format identifier, modifier 0 flagged
mandatory and do-not-fixate, a size range [1x1, 8192x8192] with default
256x256, and a framerate range [0/1, 1000/1] with default 30/1. -/
theorem C1_offer_rgba :
    format_params 30 [{ code := 0x34324241, modifier := 0 }] =
      [{ type_ := SPA_TYPE_OBJECT_Format
         id := SPA_PARAM_EnumFormat
         properties := [
           { key := SPA_FORMAT_mediaType, flags := 0,
             value := SpaValue.id SPA_MEDIA_TYPE_video },
           { key := SPA_FORMAT_mediaSubtype, flags := 0,
             value := SpaValue.id SPA_MEDIA_SUBTYPE_raw },
           { key := SPA_FORMAT_VIDEO_format, flags := 0,
             value := SpaValue.id SPA_VIDEO_FORMAT_RGBA },
           { key := SPA_FORMAT_VIDEO_modifier,
             flags := PROP_FLAG_MANDATORY ||| PROP_FLAG_DONT_FIXATE,
             value := SpaValue.id 0 },
           { key := SPA_FORMAT_VIDEO_size, flags := 0,
             value := SpaValue.choiceRectRange ⟨256, 256⟩ ⟨1, 1⟩ ⟨8192, 8192⟩ },
           { key := SPA_FORMAT_VIDEO_framerate, flags := 0,
             value := SpaValue.choiceFracRange ⟨30, 1⟩ ⟨0, 1⟩ ⟨1000, 1⟩ } ] }] := by
  decide

/-- C2 counterexample: the claim asserts the seals are applied only after
the single write; in the staging trace of the mapped bytes `[1, 2, 3]`
every seal operation happens before the mmap write, so the claimed
ordering is false. -/
theorem C2_seal_order_counterexample :
    writeThenSeal (runNewSample (allOkEnv 5) [BufferMemory.mapped [1, 2, 3]]).2 = false := by
  decide

/-- C2 (amended): for every mapped-only plane, staging allocates a fresh
region, resizes it to the mapped byte length, applies the shrink and grow
seals together in one call and then the terminal seal, and only then
performs the single verbatim write; the resulting region's byte contents
equal the input mapped bytes exactly and carry all three seals. -/
theorem C2_staging_seal_then_write (bytes : List Nat) (fd : Nat) :
    runNewSample (allOkEnv fd) [BufferMemory.mapped bytes] =
      (Except.ok (),
       [StageEvent.memfdCreate, StageEvent.setLen bytes.length,
        StageEvent.addSeals [FileSeal.sealShrink, FileSeal.sealGrow],
        StageEvent.addSeal FileSeal.sealSeal, StageEvent.mmapWrite bytes,
        StageEvent.sendFds [0] [fd]]) ∧
    regionOf (runNewSample (allOkEnv fd) [BufferMemory.mapped bytes]).2 =
      { size := bytes.length, contents := bytes,
        seals := [FileSeal.sealShrink, FileSeal.sealGrow, FileSeal.sealSeal] } :=
  ⟨rfl, rfl⟩

/-- C3: if the allocation (`memfd` create), resize (`set_len`) or either
seal operation fails while staging a mapped frame, the callback returns
the resource error for the whole frame and no descriptor is sent. -/
theorem C3_stage_failure_atomic (env : StageEnv) (bytes : List Nat)
    (h : env.createOk = false ∨ env.setLenOk = false ∨
         env.addSealsOk = false ∨ env.addSealOk = false) :
    (runNewSample env [BufferMemory.mapped bytes]).1 = Except.error FlowError.error ∧
    ∀ payload fds,
      StageEvent.sendFds payload fds ∉ (runNewSample env [BufferMemory.mapped bytes]).2 := by
  obtain ⟨c, sl, a2, a1, mm, sd, fd⟩ := env
  cases c <;> cases sl <;> cases a2 <;> cases a1 <;>
    simp_all [runNewSample, new_sample, stageMapped, tryOp, emit, throwErr, StageM.bind]

/-- Witness for C3 at a concrete failing environment and plane. -/
theorem C3_stage_failure_atomic_witness :
    (runNewSample { createOk := false, setLenOk := true, addSealsOk := true,
                    addSealOk := true, mmapOk := true, sendOk := true, freshFd := 7 }
        [BufferMemory.mapped [5]]).1 = Except.error FlowError.error ∧
    ∀ payload fds,
      StageEvent.sendFds payload fds ∉
        (runNewSample { createOk := false, setLenOk := true, addSealsOk := true,
                        addSealOk := true, mmapOk := true, sendOk := true, freshFd := 7 }
            [BufferMemory.mapped [5]]).2 :=
  C3_stage_failure_atomic _ [5] (Or.inl rfl)

/-- C4: for a descriptor-backed buffer the staging path performs no
allocation and no byte copy (the trace holds nothing but the send), and
the descriptor handed to the transport as ancillary data alongside the
one-byte payload `[0u8; 1]` is the input buffer's own descriptor. -/
theorem C4_fd_backed_zero_copy (env : StageEnv) (fd : Nat) (h : env.sendOk = true) :
    runNewSample env [BufferMemory.fdBacked fd] =
      (Except.ok (), [StageEvent.sendFds [0] [fd]]) := by
  simp [runNewSample, new_sample, tryOp, h, emit]

/-- Witness for C4 at a concrete environment and descriptor. -/
theorem C4_fd_backed_zero_copy_witness :
    runNewSample (allOkEnv 3) [BufferMemory.fdBacked 9] =
      (Except.ok (), [StageEvent.sendFds [0] [9]]) :=
  C4_fd_backed_zero_copy (allOkEnv 3) 9 rfl

/-- Helper: the format conversion succeeds only on the four supported
fourcc codes. -/
theorem fourcc_supported_of_some (c v : Nat)
    (h : fourcc_to_spa_video_format c = some v) : c ∈ supportedFourccs := by
  unfold fourcc_to_spa_video_format at h
  split at h <;> simp_all [supportedFourccs]

/-- C5: every object of the offer comes from a candidate whose fourcc is
one of the four supported codes and carries its mapped format; a
candidate with an unsupported fourcc is silently omitted (the offer is
unchanged, no error); and the offer is non-empty whenever at least one
candidate is supported. -/
theorem C5_offer_vocabulary (fps : Nat) (formats : List DrmFormat) :
    (∀ obj ∈ format_params fps formats,
        ∃ f, f ∈ formats ∧ f.code ∈ supportedFourccs ∧
          ∃ v, fourcc_to_spa_video_format f.code = some v ∧
            obj = format_get_params v f.modifier fps) ∧
    (∀ (xs ys : List DrmFormat) (f : DrmFormat),
        fourcc_to_spa_video_format f.code = none →
        format_params fps (xs ++ f :: ys) = format_params fps (xs ++ ys)) ∧
    ((∃ f, f ∈ formats ∧ (fourcc_to_spa_video_format f.code).isSome = true) →
        format_params fps formats ≠ []) := by
  refine ⟨?_, ?_, ?_⟩
  · intro obj hobj
    rw [format_params, List.mem_filterMap] at hobj
    obtain ⟨f, hf, hmap⟩ := hobj
    rw [Option.map_eq_some'] at hmap
    obtain ⟨v, hv, hobj⟩ := hmap
    exact ⟨f, hf, fourcc_supported_of_some f.code v hv, v, hv, hobj.symm⟩
  · intro xs ys f hf
    simp [format_params, List.filterMap_append, List.filterMap_cons, hf]
  · rintro ⟨f, hf, hsome⟩
    obtain ⟨v, hv⟩ := Option.isSome_iff_exists.mp hsome
    have hmem : format_get_params v f.modifier fps ∈ format_params fps formats := by
      rw [format_params, List.mem_filterMap]
      exact ⟨f, hf, by rw [hv]; rfl⟩
    exact List.ne_nil_of_mem hmem

/-- Witness for C5 at a concrete candidate list with one supported and
one unsupported fourcc. -/
theorem C5_offer_vocabulary_witness :
    format_params 30 [{ code := 0x34324241, modifier := 0 },
                      { code := 0x11111111, modifier := 3 }] ≠ [] :=
  (C5_offer_vocabulary 30 [{ code := 0x34324241, modifier := 0 },
                           { code := 0x11111111, modifier := 3 }]).2.2
    ⟨{ code := 0x34324241, modifier := 0 }, by decide, by decide⟩

/-- C6: when the queue holds older buffers and a most recently queued
buffer, the `process` callback dequeues them all, keeps only the last
one, and invokes the frame consumer exactly once, on that buffer's
planes; the older buffers never reach the consumer. -/
theorem C6_drop_older_buffers (fmt : PipewireFrameFormat)
    (older : List PwBuffer) (b : PwBuffer) :
    process_cb fmt (older ++ [b]) =
      [(fmt, b.datas.map fun p => { fd := 0, offset := p.offset, stride := p.stride })] := by
  simp [process_cb, List.foldl_append]

/-- A concrete selected-format object carrying a concrete pixel format
(RGBA) and a concrete size (1920x1080): the input for the C7 evaluation. -/
def selectedFormatObject : SpaObject :=
  { type_ := SPA_TYPE_OBJECT_Format
    id := SPA_PARAM_Format
    properties := [
      { key := SPA_FORMAT_mediaType, flags := 0,
        value := SpaValue.id SPA_MEDIA_TYPE_video },
      { key := SPA_FORMAT_mediaSubtype, flags := 0,
        value := SpaValue.id SPA_MEDIA_SUBTYPE_raw },
      { key := SPA_FORMAT_VIDEO_format, flags := 0,
        value := SpaValue.id SPA_VIDEO_FORMAT_RGBA },
      { key := SPA_FORMAT_VIDEO_modifier, flags := 0,
        value := SpaValue.id 0 },
      { key := SPA_FORMAT_VIDEO_size, flags := 0,
        value := SpaValue.rectangle ⟨1920, 1080⟩ } ] }

/-- C7: evaluation at the failing input. The selected-format object
carries a concrete pixel format (RGBA) and a concrete size (1920x1080),
yet the handler overwrites the format state with zeroes — it does not
parse the object and has no `UnrecognizedFormat` error path at all. -/
theorem C7_format_parse_stubbed :
    (param_changed { width := 7, height := 7, format := 7, modifier := 7 }
        SPA_PARAM_Format (some selectedFormatObject)).1 =
      { width := 0, height := 0, format := 0, modifier := 0 } ∧
    ({ width := 0, height := 0, format := 0, modifier := 0 } : PipewireFrameFormat) ≠
      { width := 1920, height := 1080, format := SPA_VIDEO_FORMAT_RGBA, modifier := 0 } := by
  decide

/-- C8: whenever the remote endpoint reports its chosen format (non-null
param with the Format param id), the handler issues exactly one follow-up
parameter object, and it is a `ParamBuffers` object whose sole property
sets the data type to the descriptor-backed `DmaBuf` kind. -/
theorem C8_dmabuf_buffer_request (fmt : PipewireFrameFormat) (obj : SpaObject) :
    (param_changed fmt SPA_PARAM_Format (some obj)).2 = [format_dmabuf_params] ∧
    format_dmabuf_params.type_ = SPA_TYPE_OBJECT_ParamBuffers ∧
    format_dmabuf_params.id = SPA_PARAM_Buffers ∧
    format_dmabuf_params.properties =
      [{ key := SPA_PARAM_BUFFERS_dataType, flags := 0,
         value := SpaValue.id SPA_DATA_DmaBuf }] := by
  refine ⟨?_, rfl, rfl, rfl⟩
  simp [param_changed]

/-- C9: a mapped-only plane of zero length stages successfully into a
zero-size fully sealed region whose descriptor is then sent, instead of
failing. -/
theorem C9_zero_length_plane (fd : Nat) :
    runNewSample (allOkEnv fd) [BufferMemory.mapped []] =
      (Except.ok (),
       [StageEvent.memfdCreate, StageEvent.setLen 0,
        StageEvent.addSeals [FileSeal.sealShrink, FileSeal.sealGrow],
        StageEvent.addSeal FileSeal.sealSeal, StageEvent.mmapWrite [],
        StageEvent.sendFds [0] [fd]]) ∧
    regionOf (runNewSample (allOkEnv fd) [BufferMemory.mapped []]).2 =
      { size := 0, contents := [],
        seals := [FileSeal.sealShrink, FileSeal.sealGrow, FileSeal.sealSeal] } :=
  ⟨rfl, rfl⟩

/-- C10: the emptiness guard `datas.len() < 0` compares an unsigned
length against zero with strict less-than and thus never fires, so a
buffer with zero planes still reaches the frame consumer, with the
current format and an empty plane list. -/
theorem C10_empty_plane_guard (fmt : PipewireFrameFormat) (older : List PwBuffer) :
    process_cb fmt (older ++ [{ datas := [] }]) = [(fmt, [])] := by
  simp [process_cb, List.foldl_append]
